import Mathlib

/-!
Verification development for the sigsvc WebRTC signaling broker.

Shallow embedding of the broker's core logic:
* the session-service HTTP client (`sigsvc/services/sessionsvc.py`),
* the session cache and lifecycle coordinator (`sigsvc/biz/sessions_manager.py`),
* the request handlers and dispatcher loop (`sigsvc/biz/webrtc.py`),
* the handshake authentication gate (`sigsvc/auth/handle.py`).

Python dictionaries are modelled as association lists where a fresh insert is a
`cons` and `List.lookup` returns the newest binding; `await` points of the
cooperative (asyncio) runtime are modelled either by explicit "state at resume"
parameters or, for the end-session race, by an interleaving scheduler over
atomic blocks delimited by the source's `await` expressions.  Exceptions are
modelled by explicit outcome flags following the source's `try or except`
structure.
-/

/-- Peer roles, from `sigsvc/biz/peer.py` (`PeerRole`). -/
inductive PeerRole where
  | producer
  | consumer
deriving DecidableEq, Repr

/-- The fields of an upstream session record (`SessionDC.ws_conn` plus `id`)
that the broker logic reads: `ws_conn.consumer_id`, `ws_conn.producer_id`
(optional until start) and the session id.  Remaining fields
(`app_release_uuid`, `container`, `status`, `updated`, `user_id`) are never
inspected by the modelled control flow. -/
structure SessionBase where
  id : String
  consumerId : String
  producerId : Option String
deriving DecidableEq, Repr

/-- A broker-local session view: upstream fields plus the local-only `ending`
flag, from `sigsvc/biz/dto.py` (`class Session(SessionDC)`). -/
structure SessionM where
  id : String
  consumerId : String
  producerId : Option String
  ending : Bool
deriving DecidableEq, Repr

/-- `Session.from_sessiondc`: copy the upstream fields; `ending` starts `False`. -/
def fromBase (b : SessionBase) : SessionM :=
  { id := b.id, consumerId := b.consumerId, producerId := b.producerId, ending := false }

/-- `Session.other_peer_id` from `sigsvc/biz/dto.py`: the consumer sees the
producer id, the producer sees the consumer id, anybody else raises
`UnknownPeerException` (modelled as `Except.error`). -/
def otherPeerId (s : SessionM) (peerId : String) : Except Unit (Option String) :=
  if peerId = s.consumerId then .ok s.producerId
  else if some peerId = s.producerId then .ok (some s.consumerId)
  else .error ()

/-! ## Session-service client (`sigsvc/services/sessionsvc.py`)

Each client function performs one HTTP call.  The HTTP layer is abstracted as
an outcome: either a transport-level exception, or a response with a status
code and a body.  Of the body we track exactly what the client code can
observe: whether `res.json()` decodes, the `code` field of the decoded body
(if any), and whether `Schema().load` of the declared response type succeeds. -/

/-- Observable features of an upstream HTTP response body. -/
structure BodyM where
  jsonOk : Bool
  code : Option Int
  parseOk : Bool
deriving DecidableEq, Repr

/-- Outcome of one HTTP request. -/
inductive HttpOut where
  | transportErr
  | resp (status : Nat) (body : BodyM)
deriving DecidableEq, Repr

/-- Result of a session-service client call as seen by callers:
success, `SessionNotFoundException`, or `SessionSvcException`. -/
inductive SvcOut where
  | ok
  | notFound
  | svcErr
deriving DecidableEq, Repr

/-- `create_session`: POST `/sessions/create`; non-200 raises
`SessionSvcException`, 200 parses the body into `CreateSessionResponseDTO`
(a decode or parse failure hits the generic `except` and becomes
`SessionSvcException`). -/
def svc_create_session (r : HttpOut) : SvcOut :=
  match r with
  | .transportErr => .svcErr
  | .resp status body =>
    if status ≠ 200 then .svcErr
    else if body.jsonOk && body.parseOk then .ok else .svcErr

/-- `start_session`: POST `/sessions/{id}/start`; non-200 raises
`SessionSvcException`, 200 returns with no body parse. -/
def svc_start_session (r : HttpOut) : SvcOut :=
  match r with
  | .transportErr => .svcErr
  | .resp status _ => if status ≠ 200 then .svcErr else .ok

/-- `pause_session`: POST `/sessions/{id}/pause`; same shape as `start_session`.
In particular a 409 body with `code = 1404` still raises
`SessionSvcException`: only `get_session` inspects the body code. -/
def svc_pause_session (r : HttpOut) : SvcOut :=
  match r with
  | .transportErr => .svcErr
  | .resp status _ => if status ≠ 200 then .svcErr else .ok

/-- `close_session`: POST `/sessions/{id}/close`; same shape as `start_session`. -/
def svc_close_session (r : HttpOut) : SvcOut :=
  match r with
  | .transportErr => .svcErr
  | .resp status _ => if status ≠ 200 then .svcErr else .ok

/-- `submit_webrtc_stats`: POST `/sessions/{id}/stats`; same shape as
`start_session`. -/
def svc_submit_webrtc_stats (r : HttpOut) : SvcOut :=
  match r with
  | .transportErr => .svcErr
  | .resp status _ => if status ≠ 200 then .svcErr else .ok

/-- `get_session`: GET `/sessions/{id}`.  The body is decoded first
(`res_json = await res.json()`); a decode failure is a generic exception and
becomes `SessionSvcException`.  On a non-200 status, a 409 whose body has
`code == 1404` raises `SessionNotFoundException` and anything else raises
`SessionSvcException` (a missing `code` key raises `KeyError`, also caught
generically).  On 200 the body is parsed into `GetSessionResponseDTO`. -/
def svc_get_session (r : HttpOut) : SvcOut :=
  match r with
  | .transportErr => .svcErr
  | .resp status body =>
    if body.jsonOk then
      if status ≠ 200 then
        if status = 409 ∧ body.code = some 1404 then .notFound else .svcErr
      else if body.parseOk then .ok else .svcErr
    else .svcErr

/-- `get_user_sessions`: GET `/users/{uid}/sessions`; non-200 raises
`SessionSvcException`, 200 parses into `GetSessionsResponseDTO`. -/
def svc_get_user_sessions (r : HttpOut) : SvcOut :=
  match r with
  | .transportErr => .svcErr
  | .resp status body =>
    if status ≠ 200 then .svcErr
    else if body.jsonOk && body.parseOk then .ok else .svcErr

/-- `get_consumer_sessions`: GET `/consumers/{cid}/sessions`; same shape as
`get_user_sessions`. -/
def svc_get_consumer_sessions (r : HttpOut) : SvcOut :=
  match r with
  | .transportErr => .svcErr
  | .resp status body =>
    if status ≠ 200 then .svcErr
    else if body.jsonOk && body.parseOk then .ok else .svcErr

/-- `get_producer_sessions`: GET `/producers/{pid}/sessions`; same shape as
`get_user_sessions`. -/
def svc_get_producer_sessions (r : HttpOut) : SvcOut :=
  match r with
  | .transportErr => .svcErr
  | .resp status body =>
    if status ≠ 200 then .svcErr
    else if body.jsonOk && body.parseOk then .ok else .svcErr

/-! ## Session cache and lifecycle coordinator (`sigsvc/biz/sessions_manager.py`)

All coordinator operations are modelled per session id: the cache is viewed
through the single entry `sessions_cache[session_id] : Option SessionM`.
The upstream `get_session` RPC outcome is abstracted. -/

/-- Outcome of the upstream `sessionsvc.get_session` RPC, as observed by
`SessionsManager.get_session`: a session record, `SessionNotFoundException`,
or `SessionSvcException`. -/
inductive GetOut where
  | found (b : SessionBase)
  | notFound
  | err
deriving DecidableEq, Repr

/-- The cache-miss path of `SessionsManager.get_session` (lines after the
initial `if session_id in self.sessions_cache` check missed).  `cacheAtResume`
is the state of `sessions_cache[session_id]` at the moment the upstream HTTP
response arrives: another task may have populated the entry during the
`await`, which is exactly the situation the `old_session` merge handles.
Returns the call result (`Except.error` models a propagating
`SessionSvcException`) and the new cache entry. -/
def sm_get_session_miss (cacheAtResume : Option SessionM) (up : GetOut) :
    Except Unit (Option SessionM) × Option SessionM :=
  match up with
  | .err => (.error (), cacheAtResume)
  | .notFound => (.ok none, cacheAtResume)
  | .found b =>
    let s0 := fromBase b
    let s :=
      match cacheAtResume with
      | some old => { s0 with ending := old.ending }
      | none => s0
    (.ok (some s), some s)

/-- Outcome of an upstream lifecycle RPC (`start` or `pause` or `close`): either it
returns normally or it raises. -/
inductive RpcOut where
  | ok
  | raised
deriving DecidableEq, Repr

/-- `SessionsManager.pause_session`: first `await sessionsvc.pause_session`,
then `invalidate_cache`.  If the RPC raises, the exception propagates before
the invalidation runs, so the cached entry survives.  Returns the new cache
entry and whether the call raised. -/
def sm_pause_session (cache : Option SessionM) (rpc : RpcOut) :
    Option SessionM × Bool :=
  match rpc with
  | .ok => (none, false)
  | .raised => (cache, true)

/-- `SessionsManager.close_session`: same shape as `pause_session`. -/
def sm_close_session (cache : Option SessionM) (rpc : RpcOut) :
    Option SessionM × Bool :=
  match rpc with
  | .ok => (none, false)
  | .raised => (cache, true)

/-- `SessionsManager.start_session`: `invalidate_cache` first, then the RPC,
then a `get_session` to refresh the cache (which runs the miss path, since the
entry was just invalidated).  Returns the new cache entry and whether the call
raised. -/
def sm_start_session (_cache : Option SessionM) (rpc : RpcOut) (up : GetOut) :
    Option SessionM × Bool :=
  match rpc with
  | .raised => (none, true)
  | .ok =>
    match sm_get_session_miss none up with
    | (.error _, c) => (c, true)
    | (.ok _, c) => (c, false)

/-! ## The list handler (`handle_list` in `sigsvc/biz/webrtc.py`)

Peers are a dictionary `peer_id -> Peer`; for `handle_list` only the `meta`
attribute of the producer peer is read.  `none` as a result means the handler
returned without sending anything. -/

/-- Opaque peer metadata (`Peer.meta`), a JSON object of string entries in the
model; `none` when `setPeerStatus` has not set it yet. -/
abbrev MetaMap := List (String × String)

/-- The state of one registered peer that the modelled handlers read or write. -/
structure PeerM where
  role : Option PeerRole
  meta : Option MetaMap
deriving DecidableEq, Repr

/-- `handle_list`: if the consumers-to-producers directory maps the requesting
peer's id to a producer id and that producer is a live peer, send a one-entry
producer list; if it maps to a producer that is not live, return without
sending anything (the `return` after the inner `if`); only when the directory
has no entry for the peer is the empty list sent. -/
def handle_list_m (peerId : String) (ctp : List (String × String))
    (peers : List (String × PeerM)) : Option (List (String × Option MetaMap)) :=
  match ctp.lookup peerId with
  | some producerId =>
    match peers.lookup producerId with
    | some pm => some [(producerId, pm.meta)]
    | none => none
  | none => some []

/-! ## The dispatcher loop (`handler` in `sigsvc/biz/webrtc.py`)

One iteration of the read loop for a frame that already decoded as a JSON
object.  The object is modelled as an association list of JSON values of which
the dispatcher only reads the `type` entry. -/

/-- JSON values, as far as the dispatcher's `type` comparison needs them. -/
inductive JVal where
  | str (v : String)
  | num (n : Int)
  | boolv (v : Bool)
  | nullv
deriving DecidableEq, Repr

/-- The request types the dispatcher's `if` or `elif` chain routes
(the `RequestType` values compared against `msg["type"]`). -/
def routedTypes : List String :=
  ["setPeerStatus", "list", "createSession", "startSession", "peer",
   "endSession", "getSessions", "getSession", "submitWebRtcStats"]

/-- What one loop iteration does with a decoded frame. -/
inductive FrameOut where
  | handled (t : String)
  | sendError (code : Nat) (message : String)
  | logOnly
  | breakLoop
deriving DecidableEq, Repr

/-- One dispatcher iteration on a decoded JSON object.  `msg["type"]` on an
object without a `type` key raises `KeyError`, which is not a `BizException`,
so it reaches the final generic `except` clause: logged, nothing sent.  A
`type` value that is not one of the routed strings (including any non-string
value, for which every `==` comparison is false) reaches the `else` branch,
which raises `RequestValidationException`; the `except BizException` clause
sends the error frame `1400 "request validation error"`.  Both keep the loop
alive; only `ConnectionClosedError` breaks it. -/
def dispatch_frame (msg : List (String × JVal)) : FrameOut :=
  match msg.lookup "type" with
  | none => .logOnly
  | some (.str t) =>
    if t ∈ routedTypes then .handled t
    else .sendError 1400 "request validation error"
  | some _ => .sendError 1400 "request validation error"

/-- Whether the read loop continues after this iteration (lines 271-280 of
`webrtc.py`: only a `ConnectionClosedError` breaks). -/
def loopContinues : FrameOut → Bool
  | .breakLoop => false
  | _ => true

/-! ## The auth gate (`auth` in `sigsvc/auth/handle.py`) -/

/-- Outcome of `get_user_id` on a `session` cookie value: a verified user id,
or a `BadSignature` (also covering expiry, `SignatureExpired` being a
`BadSignature`). -/
inductive VerifyOut where
  | okUid (uid : Int)
  | badSig
deriving DecidableEq, Repr

/-- Process configuration read by the auth gate. -/
structure AuthCfg where
  debugNoAuth : Bool
  authToken : Option String
deriving DecidableEq, Repr

/-- `auth`: `header` is the parsed cookie jar of the request (`none` when no
`Cookie` header is present), `verify` the cookie-verifier capability.  Returns
`none` to allow the upgrade or `some (status, body)` to reject it. -/
def auth_m (cfg : AuthCfg) (header : Option (List (String × String)))
    (verify : String → VerifyOut) : Option (Nat × String) :=
  if cfg.debugNoAuth then none
  else
    match header with
    | some jar =>
      match jar.lookup "sigsvc_authtoken" with
      | some tok =>
        if some tok = cfg.authToken then none
        else some (401, "Invalid auth token\n")
      | none =>
        match jar.lookup "session" with
        | some sc =>
          match verify sc with
          | .okUid _ => none
          | .badSig => some (401, "Invalid auth token\n")
        | none => some (401, "Missing auth token\n")
    | none => some (401, "Missing auth token\n")

/-! ## Peer registry and producer directory (`sigsvc/biz/webrtc.py` globals)

The process-wide maps `peers` and `consumers_to_producers_map`, and the
operations of the source that touch them.  Insertion into a Python dict is
modelled by a `cons`, so that `List.lookup` returns the newest binding
(last writer wins); deletion filters the key out. -/

/-- Shared broker registry state: the two process-wide maps. -/
structure BrokerState where
  peers : List (String × PeerM)
  ctp : List (String × String)
deriving DecidableEq, Repr

/-- Initial state of the process: both maps empty. -/
def initBroker : BrokerState := { peers := [], ctp := [] }

/-- Update the value stored under a key, if present (a mutation of the object
held in the dict). -/
def updateKey (k : String) (f : PeerM → PeerM) (l : List (String × PeerM)) :
    List (String × PeerM) :=
  l.map fun p => if p.1 = k then (p.1, f p.2) else p

/-- Delete a key from an association list (`del d[k]`). -/
def eraseKey (k : String) (l : List (String × PeerM)) : List (String × PeerM) :=
  l.filter fun p => p.1 ≠ k

/-- The operations of the source that read or write the two registry maps. -/
inductive BrokerOp where
  /-- `handler` registering a fresh connection: `peers[peer.id] = peer`, with
  `role` and `meta` still unset. -/
  | connect (pid : String)
  /-- `handle_connection_closed`: early return if the peer is unknown,
  otherwise `del peers[peer.id]`.  The end-session calls it then makes are
  separate operations (`evictPeer`). -/
  | disconnect (pid : String)
  /-- the `del peers[other_peer_id]` step of `handle_end_session` (only
  reached when the peer is present, which `eraseKey` subsumes). -/
  | evictPeer (pid : String)
  /-- `handle_set_peer_status`: store `meta`, then assign the role; in the
  producer branch, if `meta` has a `consumerId`, write the directory entry
  `consumers_to_producers_map[consumer_id] = peer.id`.  Unknown roles raise
  `RequestValidationException` after `meta` is already stored. -/
  | setPeerStatus (pid : String) (roles : List String) (meta : MetaMap)
  /-- `handle_list`: reads only. -/
  | listReq (pid : String)
deriving DecidableEq, Repr

/-- Effect of one operation on the registry state, transcribed from the
corresponding handler in `webrtc.py`. -/
def applyOp (s : BrokerState) (op : BrokerOp) : BrokerState :=
  match op with
  | .connect pid =>
    { s with peers := (pid, { role := none, meta := none }) :: s.peers }
  | .disconnect pid =>
    if (s.peers.lookup pid).isSome then { s with peers := eraseKey pid s.peers } else s
  | .evictPeer pid => { s with peers := eraseKey pid s.peers }
  | .listReq _ => s
  | .setPeerStatus pid roles meta =>
    let peers1 := updateKey pid (fun p => { p with meta := some meta }) s.peers
    if "listener" ∈ roles then
      { s with peers := updateKey pid (fun p => { p with role := some .consumer }) peers1 }
    else if "producer" ∈ roles then
      let peers2 := updateKey pid (fun p => { p with role := some .producer }) peers1
      match meta.lookup "consumerId" with
      | some cid => { peers := peers2, ctp := (cid, pid) :: s.ctp }
      | none => { s with peers := peers2 }
    else
      { s with peers := peers1 }

/-- The directory write (if any) an operation performs for consumer id `c`:
`some pid` when the operation is a producer announcement (producer role
selected, `consumerId` present in `meta` and equal to `c`). -/
def producerAnnFor (c : String) (op : BrokerOp) : Option String :=
  match op with
  | .setPeerStatus pid roles meta =>
    if "listener" ∈ roles then none
    else if "producer" ∈ roles then
      if meta.lookup "consumerId" = some c then some pid else none
    else none
  | _ => none

/-- The producer id announced for consumer `c` by the most recent producer
announcement in `ops` (none if there was none). -/
def lastAnn (ops : List BrokerOp) (c : String) : Option String :=
  ops.foldl
    (fun acc op =>
      match producerAnnFor c op with
      | some pid => some pid
      | none => acc)
    none

/-! ## The end-session handler (`handle_end_session` in `sigsvc/biz/webrtc.py`)

Sequential model of one invocation.  Sends and RPCs can raise; a parameter per
`await` point records whether it does.  Events are recorded at the moment a
send or upstream call is issued.  The handler's own `try or except` block (which
swallows every exception from the session load up to the peer eviction and
then falls through to `if not session`) is transcribed branch by branch. -/

/-- Observable effects of one `handle_end_session` invocation, in issue order. -/
inductive EEv where
  /-- `set_session_ending(req.sessionId)` -/
  | setEnding
  /-- `other_peer.send(endSession frame)` issued to the other peer -/
  | sendOther (pid : String)
  /-- `del peers[other_peer_id]` -/
  | evictOther (pid : String)
  /-- `sessions_manager.pause_session` issued (soft end) -/
  | upstreamPause
  /-- `sessions_manager.close_session` issued (hard end) -/
  | upstreamClose
  /-- `peer.send(sessionEnded ...)` issued to the calling peer -/
  | sendAck (sid : String)
deriving DecidableEq, Repr

/-- Environment of one `handle_end_session` invocation: the caller, the request,
the live-peer registry, and the outcome of each `await` the invocation may
perform. -/
structure EndEnv where
  /-- `peer.id` of the caller. -/
  callerId : String
  /-- `peer.role` of the caller (optional: unset until `setPeerStatus`). -/
  callerRole : Option PeerRole
  /-- `req.sessionId`. -/
  reqSid : String
  /-- `req.soft`. -/
  soft : Bool
  /-- ids present in the `peers` dict at entry (and when the other peer is
  looked up; no step of the handler between those two points yields). -/
  peersLive : List String
  /-- outcome of the upstream `sessionsvc.get_session` on a cache miss. -/
  upstreamGet : GetOut
  /-- whether the `other_peer.send` frame delivery returns normally. -/
  sendOtherOk : Bool
  /-- whether a `peer.send` of the `sessionEnded` ack returns normally. -/
  ackOk : Bool
  /-- whether the upstream pause RPC returns normally. -/
  pauseOk : Bool
  /-- whether the upstream close RPC returns normally. -/
  closeOk : Bool
deriving DecidableEq, Repr

/-- Result of one invocation: events issued, the cache entry for
`req.sessionId` afterwards, the live peers afterwards, and whether the
invocation terminated by an uncaught exception. -/
structure EndRes where
  events : List EEv
  cache : Option SessionM
  peersLive : List String
  raised : Bool
deriving DecidableEq, Repr

/-- Lines 112-123 of `webrtc.py`: `session` is bound and truthy, so the
pause-or-close step runs: issue the upstream RPC; on success the
`SessionsManager` invalidates the entry, then a direct consumer caller is
acked (an ack failure propagates: these lines are outside the `try`).  On RPC
failure the exception propagates and the cache entry survives
(`invalidate_cache` runs only after the RPC returns). -/
def endUpstream (env : EndEnv) (direct : Bool) (s : SessionM)
    (cacheNow : Option SessionM) (evs : List EEv) (plive : List String) : EndRes :=
  let callEv := if env.soft then EEv.upstreamPause else EEv.upstreamClose
  let callOk := if env.soft then env.pauseOk else env.closeOk
  if callOk then
    if direct ∧ env.callerRole = some .consumer then
      { events := evs ++ [callEv, .sendAck s.id], cache := none,
        peersLive := plive, raised := !env.ackOk }
    else
      { events := evs ++ [callEv], cache := none, peersLive := plive, raised := false }
  else
    { events := evs ++ [callEv], cache := cacheNow, peersLive := plive, raised := true }

/-- Lines 101-109 of `webrtc.py`, entered with a session that is present and
not ending: mark the cache entry ending, then look up the other peer; if it is
live, send it the `endSession` frame and evict it.  An exception from
`other_peer_id` (unknown caller) or from the frame send is caught by the
handler's `except` and control falls through to the pause-or-close step with
`session` still bound. -/
def endTeardown (env : EndEnv) (direct : Bool) (s : SessionM) : EndRes :=
  let sE : SessionM := { s with ending := true }
  let cache1 : Option SessionM := some sE
  let ev0 : List EEv := [.setEnding]
  match otherPeerId s env.callerId with
  | .error _ => endUpstream env direct sE cache1 ev0 env.peersLive
  | .ok none => endUpstream env direct sE cache1 ev0 env.peersLive
  | .ok (some oid) =>
    if oid ∈ env.peersLive then
      if env.sendOtherOk then
        endUpstream env direct sE cache1 (ev0 ++ [.sendOther oid, .evictOther oid])
          (env.peersLive.filter (· ≠ oid))
      else
        endUpstream env direct sE cache1 (ev0 ++ [.sendOther oid]) env.peersLive
    else
      endUpstream env direct sE cache1 ev0 env.peersLive

/-- `handle_end_session`, one invocation, sequential.  `cache` is the entry
`sessions_cache[req.sessionId]` at entry.

* Cache hit: the cached session is used directly.
* Cache miss: `get_session` issues the upstream GET; `err` raises
  `SessionSvcException`, caught by the handler's `except`, after which
  `if not session` raises `UnboundLocalError` (the local was never assigned),
  which propagates: no effect is issued.
* Session absent or already ending: a direct consumer caller is acked with
  `sessionEnded` and the handler returns — unless the ack send itself raises
  while the session is present, in which case the `except` catches it and
  control falls through to the pause-or-close step. -/
def handleEndSession (env : EndEnv) (cache : Option SessionM) : EndRes :=
  let direct := env.callerId ∈ env.peersLive
  match cache with
  | some s =>
    if s.ending then
      if direct ∧ env.callerRole = some .consumer then
        if env.ackOk then
          { events := [.sendAck env.reqSid], cache := cache,
            peersLive := env.peersLive, raised := false }
        else
          endUpstream env direct s cache [.sendAck env.reqSid] env.peersLive
      else
        { events := [], cache := cache, peersLive := env.peersLive, raised := false }
    else
      endTeardown env direct s
  | none =>
    match env.upstreamGet with
    | .err =>
      { events := [], cache := cache, peersLive := env.peersLive, raised := true }
    | .notFound =>
      if direct ∧ env.callerRole = some .consumer then
        { events := [.sendAck env.reqSid], cache := cache,
          peersLive := env.peersLive, raised := false }
      else
        { events := [], cache := cache, peersLive := env.peersLive, raised := false }
    | .found b =>
      endTeardown env direct (fromBase b)

/-- The session the handler's `get_session` yields (the guard's view):
the cached entry on a hit, the freshly fetched record on a miss. -/
def loadedSession (env : EndEnv) (cache : Option SessionM) : Option SessionM :=
  match cache with
  | some s => some s
  | none =>
    match env.upstreamGet with
    | .found b => some (fromBase b)
    | _ => none

/-! ## Interleaved end-session invocations (the at-most-once race)

Two concurrent `handle_end_session` invocations for the same session id, under
asyncio's cooperative scheduling.  Each task is a sequence of atomic blocks;
the blocks are delimited exactly by the `await` expressions of the source:

* the upstream GET of a cache-miss `get_session` (a cache hit returns without
  suspending, so the hit, the `ending` guard and `set_session_ending` form one
  atomic block; likewise the GET resume, the sticky-`ending` merge, the cache
  store, the guard and `set_session_ending` form one atomic block),
* the `other_peer.send` of the eviction step,
* the `sessionEnded` ack send of the early-return branch (whose failure makes
  the handler fall through to the pause-or-close step),
* the upstream pause-or-close RPC, after which `invalidate_cache` runs.

Only the state the race is about is carried: the cache entry of the one
session, projected to presence and its `ending` flag, plus the trace of
upstream termination calls and cache invalidations. -/

/-- Program counter of one end-session task. -/
inductive CPc where
  /-- about to run `get_session` -/
  | start
  /-- suspended on the upstream GET of a cache miss -/
  | fetching
  /-- suspended on the early-return `sessionEnded` ack send, with a present,
  `ending` session (the branch that falls through if the send raises) -/
  | acking
  /-- guard passed, `ending` set; about to notify the other peer -/
  | committed
  /-- other peer notified or skipped; about to issue the upstream RPC -/
  | evicted
  /-- suspended on the upstream pause-or-close RPC -/
  | calling
  /-- invocation over -/
  | done
deriving DecidableEq, Repr

/-- Outcome of the upstream GET a task would observe on a cache miss. -/
inductive CFetch where
  | found
  | absent
  | errFetch
deriving DecidableEq, Repr

/-- Per-task parameters: whether the caller is a direct consumer (so the
early-return branch sends an ack), whether that ack send returns normally, and
the task's upstream GET outcome. -/
structure CTask where
  directConsumer : Bool
  ackOk : Bool
  fetch : CFetch
deriving DecidableEq, Repr

/-- Trace events of the race model: an upstream pause-or-close call issued by
task `t`, or a cache invalidation performed by task `t`. -/
inductive CEv where
  | call (t : Bool)
  | inval (t : Bool)
deriving DecidableEq, Repr

/-- Shared state: the cache entry of the contended session projected to
`Option Bool` (presence and `ending` flag), the event trace, and both tasks'
program counters. -/
structure CSt where
  cache : Option Bool
  events : List CEv
  pc0 : CPc
  pc1 : CPc
deriving DecidableEq, Repr

/-- One atomic block of task `t`: returns the new cache, new program counter
and emitted events.  Transcribed from `handle_end_session` and
`SessionsManager.get_session` or `set_session_ending` or `pause_session`. -/
def stepTask (cfg : CTask) (t : Bool) (cache : Option Bool) (pc : CPc) :
    Option Bool × CPc × List CEv :=
  match pc with
  | .start =>
    match cache with
    | some true => if cfg.directConsumer then (cache, .acking, []) else (cache, .done, [])
    | some false => (some true, .committed, [])
    | none => (cache, .fetching, [])
  | .fetching =>
    match cfg.fetch with
    | .found =>
      match cache with
      | some true => if cfg.directConsumer then (cache, .acking, []) else (cache, .done, [])
      | some false => (some true, .committed, [])
      | none => (some true, .committed, [])
    | .absent => (cache, .done, [])
    | .errFetch => (cache, .done, [])
  | .acking =>
    if cfg.ackOk then (cache, .done, [])
    else (cache, .calling, [.call t])
  | .committed => (cache, .evicted, [])
  | .evicted => (cache, .calling, [.call t])
  | .calling =>
    match cache with
    | some _ => (none, .done, [.inval t])
    | none => (none, .done, [])
  | .done => (cache, .done, [])

/-- Run whichever task the scheduler picked for one atomic block. -/
def schedStep (cfg0 cfg1 : CTask) (s : CSt) (t : Bool) : CSt :=
  let cfg := if t then cfg1 else cfg0
  let pc := if t then s.pc1 else s.pc0
  let r := stepTask cfg t s.cache pc
  { cache := r.1, events := s.events ++ r.2.2,
    pc0 := if t then s.pc0 else r.2.1,
    pc1 := if t then r.2.1 else s.pc1 }

/-- Run a whole schedule (a list of task picks) from an initial cache state. -/
def runRace (c0 : Option Bool) (cfg0 cfg1 : CTask) (ts : List Bool) : CSt :=
  ts.foldl (schedStep cfg0 cfg1) { cache := c0, events := [], pc0 := .start, pc1 := .start }

/-- Episode accumulator: scans a trace left to right, counting upstream calls
since the last invalidation; `none` once a second call occurs in the same
episode.  `foldl accF (some 0) ≠ none` says every two upstream calls are
separated by a cache invalidation, i.e. at most one termination call per
`ending` episode. -/
def accF : Option Nat → CEv → Option Nat
  | none, _ => none
  | some n, .call _ => if n = 0 then some 1 else none
  | some _, .inval _ => some 0

/-! ## Claim C3: session-service client error mapping -/

/-- C3 counterexample: the claim states that every client call maps a 409
response whose body has `code == 1404` to `SessionNotFound`; but
`pause_session` (like every call except `get_session`) raises
`SessionSvcException` on that very response, while `get_session` does map it
to `SessionNotFound`. -/
theorem c3_counterexample :
    svc_pause_session (.resp 409 { jsonOk := true, code := some 1404, parseOk := true }) = .svcErr ∧
    svc_pause_session (.resp 409 { jsonOk := true, code := some 1404, parseOk := true }) ≠ .notFound ∧
    svc_get_session (.resp 409 { jsonOk := true, code := some 1404, parseOk := true }) = .notFound := by
  decide

/-- C3 amended: a status 200 yields the parsed declared response type and any
non-200 status, non-decodable body or transport exception raises
`SessionSvcError` for every client call; but only `get_session` maps a 409
with body `code == 1404` to `SessionNotFound` — the other eight calls never
raise `SessionNotFound`. -/
theorem c3_amended : ∀ r : HttpOut,
    (svc_create_session r ≠ .notFound) ∧
    (svc_start_session r ≠ .notFound) ∧
    (svc_pause_session r ≠ .notFound) ∧
    (svc_close_session r ≠ .notFound) ∧
    (svc_submit_webrtc_stats r ≠ .notFound) ∧
    (svc_get_user_sessions r ≠ .notFound) ∧
    (svc_get_consumer_sessions r ≠ .notFound) ∧
    (svc_get_producer_sessions r ≠ .notFound) ∧
    (svc_get_session r = .notFound ↔
      ∃ b, r = .resp 409 b ∧ b.jsonOk = true ∧ b.code = some 1404) ∧
    (svc_get_session r = .ok ↔
      ∃ b, r = .resp 200 b ∧ b.jsonOk = true ∧ b.parseOk = true) ∧
    (svc_pause_session r = .ok ↔ ∃ b, r = .resp 200 b) ∧
    (svc_start_session r = .ok ↔ ∃ b, r = .resp 200 b) ∧
    (svc_close_session r = .ok ↔ ∃ b, r = .resp 200 b) ∧
    (svc_submit_webrtc_stats r = .ok ↔ ∃ b, r = .resp 200 b) ∧
    (svc_create_session r = .ok ↔
      ∃ b, r = .resp 200 b ∧ b.jsonOk = true ∧ b.parseOk = true) ∧
    (svc_get_user_sessions r = .ok ↔
      ∃ b, r = .resp 200 b ∧ b.jsonOk = true ∧ b.parseOk = true) ∧
    (svc_get_consumer_sessions r = .ok ↔
      ∃ b, r = .resp 200 b ∧ b.jsonOk = true ∧ b.parseOk = true) ∧
    (svc_get_producer_sessions r = .ok ↔
      ∃ b, r = .resp 200 b ∧ b.jsonOk = true ∧ b.parseOk = true) := by
  intro r
  rcases r with _ | ⟨st, b⟩
  · refine ⟨?_, ?_, ?_, ?_, ?_, ?_, ?_, ?_, ?_, ?_, ?_, ?_, ?_, ?_, ?_, ?_, ?_, ?_⟩ <;>
      simp [svc_create_session, svc_start_session, svc_pause_session, svc_close_session,
        svc_submit_webrtc_stats, svc_get_user_sessions, svc_get_consumer_sessions,
        svc_get_producer_sessions, svc_get_session]
  · by_cases h200 : st = 200 <;>
      refine ⟨?_, ?_, ?_, ?_, ?_, ?_, ?_, ?_, ?_, ?_, ?_, ?_, ?_, ?_, ?_, ?_, ?_, ?_⟩ <;>
      rcases hb : b with ⟨jOk, code, pOk⟩ <;>
      cases jOk <;> cases pOk <;>
      by_cases h409 : st = 409 <;>
      by_cases hc : code = some 1404 <;>
      simp_all [svc_create_session, svc_start_session, svc_pause_session, svc_close_session,
        svc_submit_webrtc_stats, svc_get_user_sessions, svc_get_consumer_sessions,
        svc_get_producer_sessions, svc_get_session]

/-! ## Claim C4: the sticky ending flag across cache re-population -/

/-- C4: on the cache-miss path of `SessionsManager.get_session`, when an older
entry exists at the moment the upstream response arrives and upstream succeeds,
the freshly built session carries the older entry's `ending` flag, it replaces
the cache entry, and it is the value returned. -/
theorem c4_sticky_ending : ∀ (old : SessionM) (b : SessionBase),
    sm_get_session_miss (some old) (.found b) =
      (Except.ok (some { id := b.id, consumerId := b.consumerId,
                         producerId := b.producerId, ending := old.ending }),
       some { id := b.id, consumerId := b.consumerId,
              producerId := b.producerId, ending := old.ending }) := by
  intro old b
  rfl

/-! ## Claim C5: the list handler -/

/-- C5 counterexample: the claim states that a consumer whose directory entry
points at a producer that is not live receives an empty `list` response; the
handler in fact returns without sending anything in that case. -/
theorem c5_counterexample :
    handle_list_m "C1" [("C1", "P1")] [] = none ∧
    handle_list_m "C1" [("C1", "P1")] [] ≠ some [] :=
  ⟨by decide, by decide⟩

/-- C5 amended: if the directory maps the peer to a live producer, the peer
receives a one-entry producer list; if the directory has no entry for the
peer, it receives an empty list; but if the directory maps the peer to a
producer that is not live, no list response is sent at all. -/
theorem c5_amended : ∀ (pid : String) (ctp : List (String × String))
    (peers : List (String × PeerM)),
    (ctp.lookup pid = none → handle_list_m pid ctp peers = some []) ∧
    (∀ prodId, ctp.lookup pid = some prodId →
      ((∀ pm, peers.lookup prodId = some pm →
          handle_list_m pid ctp peers = some [(prodId, pm.meta)]) ∧
       (peers.lookup prodId = none → handle_list_m pid ctp peers = none))) := by
  intro pid ctp peers
  refine ⟨fun h => by simp [handle_list_m, h], fun prodId h => ⟨fun pm hpm => ?_, fun hn => ?_⟩⟩ <;>
    simp [handle_list_m, h, *]

/-- C5 amended, witness: a directory entry pointing at a dead producer yields
no response. -/
theorem c5_amended_witness :
    ([("C2", "P2")] : List (String × String)).lookup "C2" = some "P2" ∧
    ([] : List (String × PeerM)).lookup "P2" = none ∧
    handle_list_m "C2" [("C2", "P2")] [] = none :=
  ⟨by decide, by decide,
    ((c5_amended "C2" [("C2", "P2")] []).2 "P2" (by decide)).2 (by decide)⟩

/-! ## Claim C6: dispatcher handling of frames without a routable type -/

/-- C6 counterexample: the claim states that a decoded frame lacking a `type`
field earns the sender an error frame `1400`; in fact the `msg["type"]` lookup
raises `KeyError`, which is not a `BizException`, so the generic handler logs
it and nothing is sent. -/
theorem c6_counterexample :
    dispatch_frame [("sessionId", .str "S1")] = .logOnly ∧
    dispatch_frame [("sessionId", .str "S1")] ≠ .sendError 1400 "request validation error" := by
  decide

/-- C6 amended: a decoded frame whose `type` value is present but is not one
of the routed request-type strings (including non-string values) earns an
error response `1400 "request validation error"` and the read loop continues;
a frame lacking the `type` key entirely is only logged — no error frame is
sent — and the read loop continues. -/
theorem c6_amended : ∀ msg : List (String × JVal),
    (msg.lookup "type" = none →
      dispatch_frame msg = .logOnly ∧ loopContinues (dispatch_frame msg) = true) ∧
    (∀ t, msg.lookup "type" = some (.str t) → t ∉ routedTypes →
      dispatch_frame msg = .sendError 1400 "request validation error" ∧
      loopContinues (dispatch_frame msg) = true) ∧
    (∀ v, msg.lookup "type" = some v → (∀ t, v ≠ .str t) →
      dispatch_frame msg = .sendError 1400 "request validation error" ∧
      loopContinues (dispatch_frame msg) = true) := by
  intro msg
  refine ⟨fun h => by simp [dispatch_frame, h, loopContinues], fun t h ht => ?_, fun v h hv => ?_⟩
  · simp [dispatch_frame, h, ht, loopContinues]
  · rcases v with t | n | bv | _
    · exact absurd rfl (hv t)
    all_goals simp [dispatch_frame, h, loopContinues]

/-- C6 amended, witness: a numeric `type` value earns the `1400` error frame. -/
theorem c6_amended_witness :
    ([("type", JVal.num 7)] : List (String × JVal)).lookup "type" = some (.num 7) ∧
    dispatch_frame [("type", JVal.num 7)] = .sendError 1400 "request validation error" :=
  ⟨by decide,
    (((c6_amended [("type", JVal.num 7)]).2.2 (.num 7) (by decide)
      (fun t h => JVal.noConfusion h)).1)⟩

/-! ## Claim C7: cache invalidation by the lifecycle coordinator -/

/-- C7 counterexample: the claim states that `pause_session` invalidates the
cache entry on every return path including the one where the upstream HTTP
call raises; in fact the invalidation runs only after the RPC returns, so on
the raising path the stale entry survives. -/
theorem c7_counterexample :
    sm_pause_session
        (some { id := "S1", consumerId := "C1", producerId := some "P1", ending := false })
        .raised
      = (some { id := "S1", consumerId := "C1", producerId := some "P1", ending := false }, true) ∧
    (sm_pause_session
        (some { id := "S1", consumerId := "C1", producerId := some "P1", ending := false })
        .raised).1 ≠ none := by
  decide

/-- C7 amended: `start_session` invalidates the entry before its RPC, so no
path keeps the old entry (on success the entry is repopulated with fresh
upstream state by the trailing `get_session`); `pause_session` and
`close_session` invalidate only after a successful RPC — on the raising path
the old entry survives unchanged. -/
theorem c7_amended : ∀ (cache : Option SessionM) (up : GetOut),
    (sm_pause_session cache .ok = (none, false)) ∧
    (sm_pause_session cache .raised = (cache, true)) ∧
    (sm_close_session cache .ok = (none, false)) ∧
    (sm_close_session cache .raised = (cache, true)) ∧
    (sm_start_session cache .raised up = (none, true)) ∧
    (sm_start_session cache .ok up =
      match up with
      | .found b => (some (fromBase b), false)
      | .notFound => (none, false)
      | .err => (none, true)) := by
  intro cache up
  refine ⟨rfl, rfl, rfl, rfl, rfl, ?_⟩
  cases up <;> rfl

/-! ## Claim C8: the auth gate on the token and missing-cookie paths -/

/-- C8: with `DEBUG_NO_AUTH` unset, a handshake with no `Cookie` header, or a
jar containing neither `sigsvc_authtoken` nor `session`, is rejected with 401
`"Missing auth token\n"`; a `sigsvc_authtoken` differing from the configured
`AUTH_TOKEN` is rejected with 401 `"Invalid auth token\n"`; a matching
`sigsvc_authtoken` allows the upgrade. -/
theorem c8_auth : ∀ (cfg : AuthCfg) (jar : List (String × String))
    (verify : String → VerifyOut),
    cfg.debugNoAuth = false →
    (auth_m cfg none verify = some (401, "Missing auth token\n")) ∧
    (jar.lookup "sigsvc_authtoken" = none → jar.lookup "session" = none →
      auth_m cfg (some jar) verify = some (401, "Missing auth token\n")) ∧
    (∀ v, jar.lookup "sigsvc_authtoken" = some v → some v ≠ cfg.authToken →
      auth_m cfg (some jar) verify = some (401, "Invalid auth token\n")) ∧
    (∀ v, jar.lookup "sigsvc_authtoken" = some v → some v = cfg.authToken →
      auth_m cfg (some jar) verify = none) := by
  intro cfg jar verify hdbg
  refine ⟨by simp [auth_m, hdbg], fun h1 h2 => by simp [auth_m, hdbg, h1, h2],
    fun v h1 h2 => by simp [auth_m, hdbg, h1, h2], fun v h1 h2 => by simp [auth_m, hdbg, h1, ← h2]⟩

/-- C8 witness: all four branches at concrete inputs. -/
theorem c8_auth_witness :
    auth_m { debugNoAuth := false, authToken := some "tok" } none (fun _ => .badSig)
      = some (401, "Missing auth token\n") ∧
    auth_m { debugNoAuth := false, authToken := some "tok" }
      (some [("other", "x")]) (fun _ => .badSig) = some (401, "Missing auth token\n") ∧
    auth_m { debugNoAuth := false, authToken := some "tok" }
      (some [("sigsvc_authtoken", "bad")]) (fun _ => .badSig)
      = some (401, "Invalid auth token\n") ∧
    auth_m { debugNoAuth := false, authToken := some "tok" }
      (some [("sigsvc_authtoken", "tok")]) (fun _ => .badSig) = none := by
  have h := c8_auth { debugNoAuth := false, authToken := some "tok" }
    [("other", "x")] (fun _ => .badSig) rfl
  have h2 := c8_auth { debugNoAuth := false, authToken := some "tok" }
    [("sigsvc_authtoken", "bad")] (fun _ => .badSig) rfl
  have h3 := c8_auth { debugNoAuth := false, authToken := some "tok" }
    [("sigsvc_authtoken", "tok")] (fun _ => .badSig) rfl
  exact ⟨h.1, h.2.1 (by decide) (by decide),
    h2.2.2.1 "bad" (by decide) (by decide), h3.2.2.2 "tok" (by decide) rfl⟩

/-! ## Claim C10: the consumers-to-producers directory -/

/-- One operation changes the directory entry for `c` exactly when it is a
producer announcement for `c`, and then to the announcing peer's id. -/
theorem applyOp_ctp_lookup (s : BrokerState) (op : BrokerOp) (c : String) :
    ((applyOp s op).ctp.lookup c) =
      match producerAnnFor c op with
      | some pid => some pid
      | none => s.ctp.lookup c := by
  cases op with
  | connect pid => rfl
  | disconnect pid =>
    simp only [applyOp, producerAnnFor]
    split <;> rfl
  | evictPeer pid => rfl
  | listReq pid => rfl
  | setPeerStatus pid roles meta =>
    simp only [applyOp, producerAnnFor]
    by_cases hl : "listener" ∈ roles
    · simp [hl]
    · by_cases hp : "producer" ∈ roles
      · simp only [hl, hp, if_false, if_true, if_neg, if_pos]
        cases hm : meta.lookup "consumerId" with
        | none => simp [hl, hp, hm]
        | some cid =>
          by_cases hc : cid = c
          · subst hc
            simp [hl, hp, hm, List.lookup]
          · have hcc : (c == cid) = false := beq_eq_false_iff_ne.mpr fun h => hc h.symm
            simp [hl, hp, hm, hcc, hc, List.lookup]
      · simp [hl, hp]

/-- Folding a list of operations folds the announcements for `c`. -/
theorem runOps_ctp_lookup (ops : List BrokerOp) (s : BrokerState) (c : String) :
    ((ops.foldl applyOp s).ctp.lookup c) =
      ops.foldl
        (fun acc op =>
          match producerAnnFor c op with
          | some pid => some pid
          | none => acc)
        (s.ctp.lookup c) := by
  induction ops generalizing s with
  | nil => rfl
  | cons op rest ih =>
    simp only [List.foldl_cons]
    rw [ih, applyOp_ctp_lookup]

/-- C10: starting from the empty registry, after any sequence of broker
operations the directory maps each consumer id to the peer id of the most
recent producer announcement carrying that consumer id (and to nothing when
there has been none); and no operation ever deletes a directory entry. -/
theorem c10_directory :
    (∀ (ops : List BrokerOp) (c : String),
      ((ops.foldl applyOp initBroker).ctp.lookup c) = lastAnn ops c) ∧
    (∀ (s : BrokerState) (op : BrokerOp) (c : String),
      (s.ctp.lookup c).isSome → ((applyOp s op).ctp.lookup c).isSome) := by
  constructor
  · intro ops c
    rw [runOps_ctp_lookup]
    rfl
  · intro s op c h
    rw [applyOp_ctp_lookup]
    cases producerAnnFor c op <;> simp [h]

/-- C10 witness: a later producer announcement for the same consumer
overwrites the entry, and evicting the producer peer leaves the entry in
place. -/
theorem c10_directory_witness :
    (([BrokerOp.setPeerStatus "P1" ["producer"] [("consumerId", "C1")],
       BrokerOp.setPeerStatus "P2" ["producer"] [("consumerId", "C1")]].foldl
        applyOp initBroker).ctp.lookup "C1")
      = lastAnn
          [BrokerOp.setPeerStatus "P1" ["producer"] [("consumerId", "C1")],
           BrokerOp.setPeerStatus "P2" ["producer"] [("consumerId", "C1")]] "C1" ∧
    ((applyOp { peers := [("P1", { role := some .producer, meta := none })],
                ctp := [("C1", "P1")] } (.evictPeer "P1")).ctp.lookup "C1").isSome :=
  ⟨c10_directory.1 _ "C1",
    c10_directory.2 { peers := [("P1", { role := some .producer, meta := none })],
                      ctp := [("C1", "P1")] } (.evictPeer "P1") "C1" (by decide)⟩

/-! ## Claim C2: order of side effects in a teardown -/

/-- Events of the pause-or-close step: the upstream call is always issued, and
the `sessionEnded` ack follows it exactly when the RPC succeeded for a direct
consumer caller. -/
theorem endUpstream_events (env : EndEnv) (direct : Bool) (s : SessionM)
    (cacheNow : Option SessionM) (evs : List EEv) (plive : List String) :
    (endUpstream env direct s cacheNow evs plive).events =
      evs ++ [if env.soft then EEv.upstreamPause else EEv.upstreamClose] ++
      (if (if env.soft then env.pauseOk else env.closeOk) = true ∧ direct = true ∧
          env.callerRole = some .consumer
       then [EEv.sendAck s.id] else []) := by
  rcases env with ⟨cid, role, sid, soft, plv, ug, sOk, aOk, pOk, cOk⟩
  cases soft <;> cases pOk <;> cases cOk <;> cases direct <;>
    by_cases hr : role = some PeerRole.consumer <;>
      simp [endUpstream, hr]

/-- Events of the whole teardown path: mark ending first, then (when the other
peer is determined and live) the frame send and — if that send returns — the
eviction, then the upstream pause-or-close, then possibly the ack. -/
theorem endTeardown_events (env : EndEnv) (direct : Bool) (s : SessionM) :
    (endTeardown env direct s).events =
      [EEv.setEnding] ++
      (match otherPeerId s env.callerId with
       | .ok (some oid) =>
         if oid ∈ env.peersLive then
           if env.sendOtherOk then [EEv.sendOther oid, EEv.evictOther oid]
           else [EEv.sendOther oid]
         else []
       | _ => []) ++
      [if env.soft then EEv.upstreamPause else EEv.upstreamClose] ++
      (if (if env.soft then env.pauseOk else env.closeOk) = true ∧ direct = true ∧
          env.callerRole = some .consumer
       then [EEv.sendAck s.id] else []) := by
  unfold endTeardown
  cases ho : otherPeerId s env.callerId with
  | error e => simp [ho, endUpstream_events]
  | ok v =>
    cases v with
    | none => simp [ho, endUpstream_events]
    | some oid =>
      by_cases hm : oid ∈ env.peersLive
      · cases hs : env.sendOtherOk <;> simp [ho, hm, hs, endUpstream_events]
      · simp [ho, hm, endUpstream_events]

/-- C2: every invocation that reaches teardown (session found, not already
ending) issues its observable effects in the order: mark `ending` first; then,
if the other peer is determined and live, the `endSession` frame send and (if
that send returns) the registry eviction; only then the upstream pause
(`soft = true`) or close (`soft = false`); finally the `sessionEnded` ack to a
direct consumer caller. -/
theorem c2_order (env : EndEnv) (cache : Option SessionM) (s : SessionM)
    (hload : loadedSession env cache = some s) (hend : s.ending = false) :
    (handleEndSession env cache).events =
      [EEv.setEnding] ++
      (match otherPeerId s env.callerId with
       | .ok (some oid) =>
         if oid ∈ env.peersLive then
           if env.sendOtherOk then [EEv.sendOther oid, EEv.evictOther oid]
           else [EEv.sendOther oid]
         else []
       | _ => []) ++
      [if env.soft then EEv.upstreamPause else EEv.upstreamClose] ++
      (if (if env.soft then env.pauseOk else env.closeOk) = true ∧
          env.callerId ∈ env.peersLive ∧ env.callerRole = some .consumer
       then [EEv.sendAck s.id] else []) := by
  cases cache with
  | some s0 =>
    have hs : s0 = s := by simpa [loadedSession] using hload
    subst hs
    simp [handleEndSession, hend, endTeardown_events, decide_eq_true_eq]
  | none =>
    cases hg : env.upstreamGet with
    | found b =>
      have hs : fromBase b = s := by simpa [loadedSession, hg] using hload
      simp [handleEndSession, hg, endTeardown_events, hs, decide_eq_true_eq]
    | notFound => simp [loadedSession, hg] at hload
    | err => simp [loadedSession, hg] at hload

/-- Environment of the C2 witness: a live direct consumer ends a session whose
producer is live, everything succeeds. -/
def c2EnvW : EndEnv :=
  { callerId := "C1", callerRole := some .consumer, reqSid := "S1", soft := true,
    peersLive := ["C1", "P1"],
    upstreamGet := .found { id := "S1", consumerId := "C1", producerId := some "P1" },
    sendOtherOk := true, ackOk := true, pauseOk := true, closeOk := true }

/-- Cached session of the C2 witness. -/
def c2CacheW : Option SessionM :=
  some { id := "S1", consumerId := "C1", producerId := some "P1", ending := false }

/-- C2 witness: the concrete run issues, in order, the ending mark, the frame
send to the producer, the eviction, the upstream pause, the consumer ack. -/
theorem c2_order_witness :
    loadedSession c2EnvW c2CacheW =
      some { id := "S1", consumerId := "C1", producerId := some "P1", ending := false } ∧
    (handleEndSession c2EnvW c2CacheW).events =
      [EEv.setEnding, EEv.sendOther "P1", EEv.evictOther "P1",
       EEv.upstreamPause, EEv.sendAck "S1"] :=
  ⟨rfl, by
    have h := c2_order c2EnvW c2CacheW
      { id := "S1", consumerId := "C1", producerId := some "P1", ending := false } rfl rfl
    simpa [c2EnvW, otherPeerId] using h⟩

/-! ## Claim C9: failed teardown leaves a sticky ending mark -/

/-- When the upstream pause-or-close RPC raises, the cache entry passed into the
pause-or-close step survives and the invocation raises. -/
theorem endUpstream_fail (env : EndEnv) (direct : Bool) (s : SessionM)
    (cacheNow : Option SessionM) (evs : List EEv) (plive : List String)
    (h : (if env.soft then env.pauseOk else env.closeOk) = false) :
    (endUpstream env direct s cacheNow evs plive).cache = cacheNow ∧
    (endUpstream env direct s cacheNow evs plive).raised = true := by
  simp [endUpstream, h]

/-- A teardown whose upstream RPC raises leaves the entry cached with
`ending = true` and propagates the exception. -/
theorem endTeardown_fail (env : EndEnv) (direct : Bool) (s : SessionM)
    (h : (if env.soft then env.pauseOk else env.closeOk) = false) :
    (endTeardown env direct s).cache = some { s with ending := true } ∧
    (endTeardown env direct s).raised = true := by
  unfold endTeardown
  cases ho : otherPeerId s env.callerId with
  | error e => exact endUpstream_fail env direct _ _ _ _ h
  | ok v =>
    cases v with
    | none => exact endUpstream_fail env direct _ _ _ _ h
    | some oid =>
      by_cases hm : oid ∈ env.peersLive
      · cases hs : env.sendOtherOk <;> simp only [hm, if_pos, if_neg, hs,
          Bool.false_eq_true, if_false, if_true, ite_true, ite_false] <;>
          exact endUpstream_fail env direct _ _ _ _ h
      · simp only [hm, if_neg, not_false_iff, ite_false]
        exact endUpstream_fail env direct _ _ _ _ h

/-- C9 counterexample environment: a direct consumer repeats `endSession` for
a session already marked ending, but its own connection is broken so the
`sessionEnded` ack send raises. -/
def c9EnvX : EndEnv :=
  { callerId := "C1", callerRole := some .consumer, reqSid := "S1", soft := true,
    peersLive := ["C1"], upstreamGet := .err,
    sendOtherOk := true, ackOk := false, pauseOk := true, closeOk := true }

/-- C9 counterexample: the claim states the broker never issues another
upstream pause or close attempt while the `ending = true` entry survives; but
when the guard's ack send raises, the handler's `except` catches it and falls
through to the pause-or-close step, issuing another upstream call. -/
theorem c9_counterexample :
    (some { id := "S1", consumerId := "C1", producerId := some "P1", ending := true }
        : Option SessionM).all (fun s => s.ending) = true ∧
    EEv.upstreamPause ∈
      (handleEndSession c9EnvX
        (some { id := "S1", consumerId := "C1", producerId := some "P1", ending := true })).events := by
  constructor
  · decide
  · decide

/-- C9 amended: (a) when a teardown's upstream pause-or-close raises after the
session was marked ending, the cache entry is left with `ending = true` and
the exception propagates (no retry happens inside the invocation); (b) a
subsequent `endSession` for a cached entry with `ending = true` leaves the
cache untouched, issues no upstream pause or close, and sends exactly the
`sessionEnded` ack to a direct consumer caller — provided that, when such an
ack is due, its send does not raise (a raising ack send falls through to the
pause-or-close step instead). -/
theorem c9_amended : ∀ (env : EndEnv) (cache : Option SessionM) (s : SessionM),
    (loadedSession env cache = some s → s.ending = false →
      (if env.soft then env.pauseOk else env.closeOk) = false →
      (handleEndSession env cache).cache = some { s with ending := true } ∧
      (handleEndSession env cache).raised = true) ∧
    (cache = some s → s.ending = true →
      ((env.callerId ∈ env.peersLive ∧ env.callerRole = some .consumer) → env.ackOk = true) →
      (handleEndSession env cache).cache = cache ∧
      EEv.upstreamPause ∉ (handleEndSession env cache).events ∧
      EEv.upstreamClose ∉ (handleEndSession env cache).events ∧
      (handleEndSession env cache).events =
        (if env.callerId ∈ env.peersLive ∧ env.callerRole = some .consumer
         then [EEv.sendAck env.reqSid] else [])) := by
  intro env cache s
  constructor
  · intro hload hend hfail
    cases cache with
    | some s0 =>
      have hs : s0 = s := by simpa [loadedSession] using hload
      have hend0 : s0.ending = false := by rw [hs]; exact hend
      have hred : handleEndSession env (some s0)
          = endTeardown env (decide (env.callerId ∈ env.peersLive)) s0 := by
        simp [handleEndSession, hend0]
      rw [hred, hs]
      exact endTeardown_fail env _ s hfail
    | none =>
      cases hg : env.upstreamGet with
      | found b =>
        have hs : fromBase b = s := by simpa [loadedSession, hg] using hload
        have hred : handleEndSession env none
            = endTeardown env (decide (env.callerId ∈ env.peersLive)) (fromBase b) := by
          simp [handleEndSession, hg]
        rw [hred, hs]
        exact endTeardown_fail env _ s hfail
      | notFound => simp [loadedSession, hg] at hload
      | err => simp [loadedSession, hg] at hload
  · intro hc hend hack
    subst hc
    by_cases hdc : env.callerId ∈ env.peersLive ∧ env.callerRole = some PeerRole.consumer
    · have ha := hack hdc
      simp [handleEndSession, hend, hdc, ha]
    · simp [handleEndSession, hend, hdc]

/-- Environment of the C9 witness, failing branch: the upstream pause raises. -/
def c9EnvY : EndEnv :=
  { callerId := "C1", callerRole := some .consumer, reqSid := "S1", soft := true,
    peersLive := ["C1", "P1"], upstreamGet := .err,
    sendOtherOk := true, ackOk := true, pauseOk := false, closeOk := true }

/-- Environment of the C9 witness, guard branch: the entry is already ending
and the ack send succeeds. -/
def c9EnvZ : EndEnv :=
  { callerId := "C1", callerRole := some .consumer, reqSid := "S1", soft := true,
    peersLive := ["C1"], upstreamGet := .err,
    sendOtherOk := true, ackOk := true, pauseOk := true, closeOk := true }

/-- C9 witness: both branches of the amended claim at concrete inputs. -/
theorem c9_amended_witness :
    ((handleEndSession c9EnvY
        (some { id := "S1", consumerId := "C1", producerId := some "P1", ending := false })).cache
      = some { id := "S1", consumerId := "C1", producerId := some "P1", ending := true } ∧
     (handleEndSession c9EnvY
        (some { id := "S1", consumerId := "C1", producerId := some "P1", ending := false })).raised
      = true) ∧
    (handleEndSession c9EnvZ
        (some { id := "S1", consumerId := "C1", producerId := some "P1", ending := true })).events
      = [EEv.sendAck "S1"] := by
  constructor
  · exact (c9_amended c9EnvY
      (some { id := "S1", consumerId := "C1", producerId := some "P1", ending := false })
      { id := "S1", consumerId := "C1", producerId := some "P1", ending := false }).1 rfl rfl rfl
  · have h := (c9_amended c9EnvZ
      (some { id := "S1", consumerId := "C1", producerId := some "P1", ending := true })
      { id := "S1", consumerId := "C1", producerId := some "P1", ending := true }).2 rfl rfl
      (fun _ => rfl)
    simpa [c9EnvZ] using h.2.2.2

/-! ## Claim C1: at-most-once upstream termination under interleaving -/

/-- A task is active between passing the guard and finishing its invalidation. -/
def isActive : CPc → Bool
  | .committed => true
  | .evicted => true
  | .calling => true
  | _ => false

/-- A task is mid-call between issuing the upstream RPC and invalidating. -/
def isCalling : CPc → Bool
  | .calling => true
  | _ => false

theorem isCalling_isActive (pc : CPc) : isCalling pc = true → isActive pc = true := by
  cases pc <;> simp [isCalling, isActive]

/-- Number of tasks currently mid-call. -/
def callCnt (s : CSt) : Nat :=
  (if isCalling s.pc0 then 1 else 0) + (if isCalling s.pc1 then 1 else 0)

/-- The race invariant: the episode accumulator of the trace equals the number
of tasks mid-call, at most one task is active, and an active task means the
cache entry is present and marked ending. -/
def raceInv (s : CSt) : Prop :=
  s.events.foldl accF (some 0) = some (callCnt s) ∧
  (isActive s.pc0 = true → isActive s.pc1 = true → False) ∧
  (isActive s.pc0 = true → s.cache = some true) ∧
  (isActive s.pc1 = true → s.cache = some true)

/-- One atomic block of one task preserves the invariant, stated for the
stepping task `A` against the other task `B` (given that the stepping task's
early-return ack send does not raise). -/
theorem raceInv_step_core (cfg : CTask) (hack : cfg.ackOk = true)
    (cache : Option Bool) (evs : List CEv) (pcA pcB : CPc) (tA : Bool)
    (hacc : evs.foldl accF (some 0) =
      some ((if isCalling pcA then 1 else 0) + (if isCalling pcB then 1 else 0)))
    (hone : isActive pcA = true → isActive pcB = true → False)
    (hcA : isActive pcA = true → cache = some true)
    (hcB : isActive pcB = true → cache = some true) :
    ((evs ++ (stepTask cfg tA cache pcA).2.2).foldl accF (some 0) =
      some ((if isCalling (stepTask cfg tA cache pcA).2.1 then 1 else 0) +
        (if isCalling pcB then 1 else 0))) ∧
    (isActive (stepTask cfg tA cache pcA).2.1 = true → isActive pcB = true → False) ∧
    (isActive (stepTask cfg tA cache pcA).2.1 = true →
      (stepTask cfg tA cache pcA).1 = some true) ∧
    (isActive pcB = true → (stepTask cfg tA cache pcA).1 = some true) := by
  have hBcall : isActive pcA = true → isCalling pcB = false := by
    intro ha
    cases hic : isCalling pcB
    · rfl
    · exact absurd (hone ha (isCalling_isActive _ hic)) not_false
  cases pcA with
  | start =>
    cases cache with
    | none => simp_all [stepTask, isActive, isCalling]
    | some b =>
      cases b
      · simp_all [stepTask, isActive, isCalling]
      · cases hdc : cfg.directConsumer <;> simp_all [stepTask, isActive, isCalling]
  | fetching =>
    cases hf : cfg.fetch with
    | found =>
      cases cache with
      | none => simp_all [stepTask, isActive, isCalling]
      | some b =>
        cases b
        · simp_all [stepTask, isActive, isCalling]
        · cases hdc : cfg.directConsumer <;> simp_all [stepTask, isActive, isCalling]
    | absent => simp_all [stepTask, isActive, isCalling]
    | errFetch => simp_all [stepTask, isActive, isCalling]
  | acking => simp_all [stepTask, isActive, isCalling, hack]
  | committed => simp_all [stepTask, isActive, isCalling]
  | evicted =>
    have hb : isCalling pcB = false := hBcall (by simp [isActive])
    have hca : cache = some true := hcA (by simp [isActive])
    simp_all [stepTask, isActive, isCalling, List.foldl_append, accF]
  | calling =>
    have hca : cache = some true := hcA (by simp [isActive])
    have hb : isCalling pcB = false := hBcall (by simp [isActive])
    subst hca
    refine ⟨?_, ?_, ?_, ?_⟩
    · simp_all [stepTask, isActive, isCalling, List.foldl_append, accF]
    · simp [stepTask, isActive]
    · simp [stepTask, isActive]
    · intro h
      exact absurd (hone (by simp [isActive]) h) not_false
  | done => simp_all [stepTask, isActive, isCalling]

/-- One scheduler step preserves the race invariant (when neither task's
early-return ack send raises). -/
theorem raceInv_step (cfg0 cfg1 : CTask) (h0 : cfg0.ackOk = true) (h1 : cfg1.ackOk = true)
    (s : CSt) (t : Bool) (hs : raceInv s) : raceInv (schedStep cfg0 cfg1 s t) := by
  obtain ⟨hacc, hone, hc0, hc1⟩ := hs
  unfold raceInv
  cases t
  · have h := raceInv_step_core cfg0 h0 s.cache s.events s.pc0 s.pc1 false hacc hone hc0 hc1
    simpa [schedStep, callCnt] using h
  · have hacc1 : s.events.foldl accF (some 0) =
        some ((if isCalling s.pc1 then 1 else 0) + (if isCalling s.pc0 then 1 else 0)) := by
      rw [hacc, callCnt, Nat.add_comm]
    have h := raceInv_step_core cfg1 h1 s.cache s.events s.pc1 s.pc0 true hacc1
      (fun a b => hone b a) hc1 hc0
    refine ⟨?_, fun a b => h.2.1 b a, h.2.2.2, h.2.2.1⟩
    show (s.events ++ (stepTask cfg1 true s.cache s.pc1).2.2).foldl accF (some 0) =
      some ((if isCalling s.pc0 then 1 else 0) +
        (if isCalling (stepTask cfg1 true s.cache s.pc1).2.1 then 1 else 0))
    rw [h.1, Nat.add_comm]

/-- The race invariant holds along every schedule. -/
theorem raceInv_run (cfg0 cfg1 : CTask) (h0 : cfg0.ackOk = true) (h1 : cfg1.ackOk = true)
    (ts : List Bool) (s : CSt) (hs : raceInv s) :
    raceInv (ts.foldl (schedStep cfg0 cfg1) s) := by
  induction ts generalizing s with
  | nil => exact hs
  | cons t rest ih => exact ih _ (raceInv_step cfg0 cfg1 h0 h1 s t hs)

/-- C1 amended: under every interleaving of two end-session invocations for
the same session — whatever the initial cache state and each task's fetch
outcome, and provided no early-return `sessionEnded` ack send raises — any two
upstream pause-or-close calls are separated by a cache invalidation: at most
one upstream termination call is issued per `ending` episode of the cached
entry.  (The episode accumulator staying defined is exactly that separation
property.) -/
theorem c1_amended : ∀ (c0 : Option Bool) (cfg0 cfg1 : CTask) (ts : List Bool),
    cfg0.ackOk = true → cfg1.ackOk = true →
    ((runRace c0 cfg0 cfg1 ts).events.foldl accF (some 0)).isSome = true := by
  intro c0 cfg0 cfg1 ts h0 h1
  have hinit : raceInv { cache := c0, events := [], pc0 := .start, pc1 := .start } := by
    refine ⟨rfl, ?_, ?_, ?_⟩ <;> simp [isActive]
  have h := raceInv_run cfg0 cfg1 h0 h1 ts _ hinit
  unfold runRace
  rw [h.1]
  rfl

/-- Task parameters of the C1 witness and counterexample: an indirect (or
non-consumer) caller whose ack send never raises and whose fetch succeeds. -/
def c1CfgW : CTask := { directConsumer := false, ackOk := true, fetch := .found }

/-- C1 amended, witness: the race schedule of the counterexample still has its
two upstream calls separated by an invalidation. -/
theorem c1_amended_witness :
    c1CfgW.ackOk = true ∧
    ((runRace none c1CfgW c1CfgW
        [false, true, false, false, false, false, true, true, true, true]).events.foldl
        accF (some 0)).isSome = true :=
  ⟨rfl, c1_amended none c1CfgW c1CfgW
    [false, true, false, false, false, false, true, true, true, true] rfl rfl⟩

/-- C1 counterexample: the claim states that two interleaved `endSession`
invocations for the same session never both reach the upstream pause-or-close
step.  But when both invocations miss the cache, the first can complete its
whole teardown (fetch, guard, mark ending, evict, pause, invalidate) while the
second's GET is still in flight; the second then resumes against the
invalidated cache, finds `ending = false`, passes the guard and issues a
second upstream call.  Both tasks issue an upstream termination call in this
schedule. -/
theorem c1_counterexample :
    CEv.call false ∈
      (runRace none c1CfgW c1CfgW
        [false, true, false, false, false, false, true, true, true, true]).events ∧
    CEv.call true ∈
      (runRace none c1CfgW c1CfgW
        [false, true, false, false, false, false, true, true, true, true]).events := by
  constructor
  · decide
  · decide
